import Mathlib

/-!
Verification of the computational core of `robotic_arm_orientation.py`:
construction of elementary homogeneous transformation matrices (`HTM.__init__`),
their composition (`CalculatedHTM.__init__`, via `np.dot`), and the chain
assembly performed by `main`.

Real-valued arithmetic of the source (Python floats, `math.cos`, `math.sin`,
`round(_, 5)`) is modelled over `ℝ`, with `round(x, 5)` modelled as rounding
`x * 10^5` to the nearest integer.  Shapes and failure behaviour of `np.dot`
on general (non-4x4) inputs are modelled separately by a computable
list-of-rows model over `ℚ`, where only shapes matter.
-/

namespace RoboticArm

open Real Matrix

/-- Python's `round(x, 5)`: round to 5 decimal places. -/
noncomputable def round5 (x : ℝ) : ℝ := (round (x * 100000) : ℤ) / 100000

/-- Python's `math.radians(d)`: convert degrees to radians. -/
noncomputable def radians (d : ℝ) : ℝ := d * (Real.pi / 180)

/-- Python's `str.upper()` on the axis-code string (`matrixType.upper()`):
uppercase every character. -/
def pyUpper (s : String) : String := ⟨s.data.map Char.toUpper⟩

/-- 4x4 real matrices, the type of `self.mat`. -/
abbrev M4 := Matrix (Fin 4) (Fin 4) ℝ

/-- The state of an `HTM` object after `__init__` returns: the fields
`objName`, `matrixType` (upper-cased), `segL`, `theta` (converted to radians
when present) are always set; `mat` is set only when the axis-code dispatch
found a matching branch (`mat = none` models the `else` branch, which only
prints a diagnostic and leaves the object without a `mat` attribute). -/
structure HTMObj where
  objName : String
  matrixType : String
  segL : ℝ
  theta : Option ℝ
  mat : Option M4

/-- The matrix built in the `matrixType == 'X'` branch of `HTM.__init__`. -/
noncomputable def matX (L θ : ℝ) : M4 :=
  ![![1, 0, 0, L],
    ![0, round5 (Real.cos θ), round5 (-(Real.sin θ)), 0],
    ![0, round5 (Real.sin θ), round5 (Real.cos θ), 0],
    ![0, 0, 0, 1]]

/-- The matrix built in the `matrixType == 'Y'` branch of `HTM.__init__`.
The translation entries multiply the raw `segL` by the already-rounded
cosine/sine; the product itself is not rounded. -/
noncomputable def matY (L θ : ℝ) : M4 :=
  ![![round5 (Real.cos θ), 0, round5 (Real.sin θ), L * round5 (Real.cos θ)],
    ![0, 1, 0, 0],
    ![round5 (-(Real.sin θ)), 0, round5 (Real.cos θ), L * round5 (Real.sin θ)],
    ![0, 0, 0, 1]]

/-- The matrix built in the `matrixType == 'Z'` branch of `HTM.__init__`. -/
noncomputable def matZ (L θ : ℝ) : M4 :=
  ![![round5 (Real.cos θ), round5 (-(Real.sin θ)), 0, L * round5 (Real.cos θ)],
    ![round5 (Real.sin θ), round5 (Real.cos θ), 0, L * round5 (Real.sin θ)],
    ![0, 0, 1, 0],
    ![0, 0, 0, 1]]

/-- The matrix built in the `matrixType == 'I' and theta is None` branch. -/
noncomputable def matI (L : ℝ) : M4 :=
  ![![1, 0, 0, L],
    ![0, 1, 0, 0],
    ![0, 0, 1, 0],
    ![0, 0, 0, 1]]

/-- `HTM.__init__(objName, matrixType, segmentLength, theta=None)`.

The result is `none` when the constructor raises: this happens exactly in
the `'X'`/`'Y'`/`'Z'` branches with `theta is None`, where Python evaluates
`math.cos(None)` and a `TypeError` propagates out of `__init__`.  In every
other case the constructor returns normally; the unmatched-code `else`
branch prints a message and returns an object whose `mat` field is absent,
modelled as `mat = none`. -/
noncomputable def htmInit (objName matrixType : String) (segL : ℝ) (theta : Option ℝ) :
    Option HTMObj :=
  if pyUpper matrixType = "X" then
    match theta.map radians with
    | some θ => some ⟨objName, pyUpper matrixType, segL, some θ, some (matX segL θ)⟩
    | none => none
  else if pyUpper matrixType = "Y" then
    match theta.map radians with
    | some θ => some ⟨objName, pyUpper matrixType, segL, some θ, some (matY segL θ)⟩
    | none => none
  else if pyUpper matrixType = "Z" then
    match theta.map radians with
    | some θ => some ⟨objName, pyUpper matrixType, segL, some θ, some (matZ segL θ)⟩
    | none => none
  else if pyUpper matrixType = "I" ∧ theta.map radians = none then
    some ⟨objName, pyUpper matrixType, segL, none, some (matI segL)⟩
  else
    some ⟨objName, pyUpper matrixType, segL, theta.map radians, none⟩

/-- `np.dot` specialised to two 4x4 arrays: the standard matrix product,
entry `(i, j)` being the dot product of row `i` of `r1` with column `j`
of `r2`. -/
noncomputable def npDot (r1 r2 : M4) : M4 :=
  Matrix.of fun i j => ∑ k, r1 i k * r2 k j

/-- The state of a `CalculatedHTM` object after `__init__`. -/
structure CalculatedHTMObj where
  objName : String
  r1 : M4
  r2 : M4
  mat : M4

/-- `CalculatedHTM.__init__(objName, r1, r2)`: stores the operands and
`self.mat = np.dot(r1, r2)`. -/
noncomputable def calculatedHTMInit (objName : String) (r1 r2 : M4) : CalculatedHTMObj :=
  ⟨objName, r1, r2, npDot r1 r2⟩

/-- Entry `(row, j)` of `np.dot`: the dot product of `row` with column `j`
of `r2`. -/
def dotEntry (row : List ℚ) (r2 : List (List ℚ)) (j : Nat) : ℚ :=
  ((row.zip r2).map fun p => p.1 * (p.2.getD j 0)).sum

/-- `np.dot` on two 2-D arrays of arbitrary shape, given as lists of rows.
numpy multiplies whenever the inner dimensions agree (every row of `r1` as
long as `r2` has rows) and raises `ValueError` (modelled as `none`)
otherwise; there is no 4x4 check anywhere in `CalculatedHTM.__init__`. -/
def npDot2d (r1 r2 : List (List ℚ)) : Option (List (List ℚ)) :=
  if r1.all (fun row => row.length = r2.length) then
    some (r1.map fun row => (List.range ((r2.headD []).length)).map fun j => dotEntry row r2 j)
  else none

/-- `r` is a rectangular `m` x `n` array. -/
def isRect (r : List (List ℚ)) (m n : Nat) : Prop :=
  r.length = m ∧ ∀ row ∈ r, row.length = n

/-- The top-left 3x3 block of a 4x4 matrix (the rotation block). -/
noncomputable def rotBlock (m : M4) : Matrix (Fin 3) (Fin 3) ℝ :=
  ![![m 0 0, m 0 1, m 0 2],
    ![m 1 0, m 1 1, m 1 2],
    ![m 2 0, m 2 1, m 2 2]]

/-- A valid homogeneous transform to within tolerance `tol`: the bottom row
is `[0,0,0,1]`, the rotation block is orthonormal to within `tol`
entrywise, and its determinant is `1` to within `tol`. -/
def isValidHTM (tol : ℝ) (m : M4) : Prop :=
  m 3 0 = 0 ∧ m 3 1 = 0 ∧ m 3 2 = 0 ∧ m 3 3 = 1 ∧
  (∀ i j : Fin 3, |((rotBlock m).transpose * rotBlock m - 1) i j| ≤ tol) ∧
  |(rotBlock m).det - 1| ≤ tol

/-- Elementwise (Hadamard) product of two 4x4 matrices — what composition
must NOT be. -/
noncomputable def elementwiseMul (r1 r2 : M4) : M4 :=
  Matrix.of fun i j => r1 i j * r2 i j

/-- The all-ones 4x4 matrix, a probe input separating the matrix product
from the elementwise product. -/
noncomputable def onesMat : M4 := Matrix.of fun _ _ => 1

/-- `R_00 = HTM('R_00','i',0)`, the world frame of `main`. -/
noncomputable def R00mat : M4 := matI 0

/-- `T_01 = HTM('T_01','z',5,150)` in `main`. -/
noncomputable def T01mat : M4 := matZ 5 (radians 150)

/-- `T_12 = HTM('T_12','y',4,100)` in `main`. -/
noncomputable def T12mat : M4 := matY 4 (radians 100)

/-- `T_23 = HTM('T_23','z',3,-90)` in `main`. -/
noncomputable def T23mat : M4 := matZ 3 (radians (-90))

/-- `T_34 = HTM('T_34','z',3,-60)` in `main`. -/
noncomputable def T34mat : M4 := matZ 3 (radians (-60))

/-- `T_45 = HTM('T_34','x',1.5,90)` in `main` (the source reuses the
name string `'T_34'`; names are diagnostic only). -/
noncomputable def T45mat : M4 := matX 1.5 (radians 90)

/-- `T_02 = CalculatedHTM('T_02', T_01.mat, T_12.mat)` in `main`. -/
noncomputable def T02mat : M4 := (calculatedHTMInit "T_02" T01mat T12mat).mat

/-- `T_03 = CalculatedHTM('T_03', T_02.mat, T_23.mat)` in `main`. -/
noncomputable def T03mat : M4 := (calculatedHTMInit "T_03" T02mat T23mat).mat

/-- `T_04 = CalculatedHTM('T_04', T_03.mat, T_34.mat)` in `main`. -/
noncomputable def T04mat : M4 := (calculatedHTMInit "T_04" T03mat T34mat).mat

/-- `T_05 = CalculatedHTM('T_05', T_04.mat, T_45.mat)` in `main`. -/
noncomputable def T05mat : M4 := (calculatedHTMInit "T_05" T04mat T45mat).mat

/-- The matrices of the frames appended to `frameList` by `main`, in
append order: `[R_00, T_01, T_02, T_03, T_04, T_05]`. -/
noncomputable def frameList : List M4 :=
  [R00mat, T01mat, T02mat, T03mat, T04mat, T05mat]

/-- A 4x4 transform that is valid to within tolerance `1e-4` but whose
square is not: the rotation block is `1.000033` times the identity. -/
noncomputable def nearValidA : M4 :=
  ![![1000033/1000000, 0, 0, 0],
    ![0, 1000033/1000000, 0, 0],
    ![0, 0, 1000033/1000000, 0],
    ![0, 0, 0, 1]]

/-! ### Numeric helper lemmas -/

lemma abs_mul_le {a b A B : ℝ} (ha : |a| ≤ A) (hb : |b| ≤ B) : |a * b| ≤ A * B := by
  rw [abs_mul]
  exact mul_le_mul ha hb (abs_nonneg b) (le_trans (abs_nonneg a) ha)

lemma round5_close (x : ℝ) : |round5 x - x| ≤ 1/200000 := by
  unfold round5
  have h : (round (x * 100000) : ℝ) / 100000 - x =
      ((round (x * 100000) : ℝ) - x * 100000) / 100000 := by
    field_simp
    ring
  rw [h, abs_div]
  have h2 : |x * 100000 - (round (x * 100000) : ℝ)| ≤ 1/2 := abs_sub_round _
  rw [abs_sub_comm] at h2
  have h3 : |(100000 : ℝ)| = 100000 := by norm_num
  rw [h3]
  linarith

lemma round5_zero : round5 0 = 0 := by
  unfold round5
  norm_num

lemma round5_one : round5 1 = 1 := by
  unfold round5
  have h : ((1 : ℝ)) * 100000 = ((100000 : ℤ) : ℝ) := by norm_num
  rw [h, round_intCast]
  norm_num

lemma round5_half : round5 (1/2) = 1/2 := by
  unfold round5
  have h : ((1 : ℝ)/2) * 100000 = ((50000 : ℤ) : ℝ) := by norm_num
  rw [h, round_intCast]
  norm_num

lemma round5_neg_half : round5 (-(1/2)) = -(1/2) := by
  unfold round5
  have h : (-((1 : ℝ)/2)) * 100000 = ((-50000 : ℤ) : ℝ) := by norm_num
  rw [h, round_intCast]
  norm_num

lemma round5_idem (x : ℝ) : round5 (round5 x) = round5 x := by
  unfold round5
  have h : ((round (x * 100000) : ℤ) : ℝ) / 100000 * 100000 = ((round (x * 100000) : ℤ) : ℝ) := by
    field_simp
  rw [h, round_intCast]

lemma round5_micro : round5 (1/1000000) = 0 := by
  unfold round5
  have h : ((1 : ℝ)/1000000) * 100000 = 1/10 := by norm_num
  rw [h, round_eq]
  norm_num

lemma radians_zero : radians 0 = 0 := by
  unfold radians
  ring

lemma rot_bounds (c s c' s' t : ℝ) (hp : c^2 + s^2 = 1)
    (hc : |c' - c| ≤ 1/200000) (hs : |s' - s| ≤ 1/200000) (ht : |t + s| ≤ 1/200000) :
    |c'^2 + s'^2 - 1| ≤ 1/10000 ∧ |t^2 + c'^2 - 1| ≤ 1/10000 ∧
    |c' * (t + s')| ≤ 1/10000 ∧ |c'^2 - t*s' - 1| ≤ 1/10000 := by
  have hc1 : |c| ≤ 1 := by
    rw [abs_le]; constructor <;> nlinarith [sq_nonneg s, sq_nonneg (c-1), sq_nonneg (c+1)]
  have hs1 : |s| ≤ 1 := by
    rw [abs_le]; constructor <;> nlinarith [sq_nonneg c, sq_nonneg (s-1), sq_nonneg (s+1)]
  have hcs : |c'| ≤ 1 + 1/200000 := by
    have e : c' = (c' - c) + c := by ring
    calc |c'| = |(c' - c) + c| := by rw [← e]
      _ ≤ |c' - c| + |c| := abs_add _ _
      _ ≤ 1 + 1/200000 := by linarith
  have hss : |s'| ≤ 1 + 1/200000 := by
    have e : s' = (s' - s) + s := by ring
    calc |s'| = |(s' - s) + s| := by rw [← e]
      _ ≤ |s' - s| + |s| := abs_add _ _
      _ ≤ 1 + 1/200000 := by linarith
  have hcc : |c' + c| ≤ 2 + 1/200000 := by
    have e : c' + c = (c' - c) + (c + c) := by ring
    calc |c' + c| = |(c' - c) + (c + c)| := by rw [← e]
      _ ≤ |c' - c| + |c + c| := abs_add _ _
      _ ≤ 1/200000 + (|c| + |c|) := add_le_add hc (abs_add c c)
      _ ≤ 2 + 1/200000 := by linarith
  have hssum : |s' + s| ≤ 2 + 1/200000 := by
    have e : s' + s = (s' - s) + (s + s) := by ring
    calc |s' + s| = |(s' - s) + (s + s)| := by rw [← e]
      _ ≤ |s' - s| + |s + s| := abs_add _ _
      _ ≤ 1/200000 + (|s| + |s|) := add_le_add hs (abs_add s s)
      _ ≤ 2 + 1/200000 := by linarith
  have hts : |t - s| ≤ 2 + 1/200000 := by
    have e : t - s = (t + s) + -(s + s) := by ring
    calc |t - s| = |(t + s) + -(s + s)| := by rw [← e]
      _ ≤ |t + s| + |-(s + s)| := abs_add _ _
      _ ≤ 1/200000 + (|s| + |s|) := by rw [abs_neg]; exact add_le_add ht (abs_add s s)
      _ ≤ 2 + 1/200000 := by linarith
  refine ⟨?_, ?_, ?_, ?_⟩
  · have e1 : c'^2 + s'^2 - 1 = (c' - c)*(c' + c) + (s' - s)*(s' + s) := by
      rw [← hp]; ring
    rw [e1]
    calc |(c' - c)*(c' + c) + (s' - s)*(s' + s)|
        ≤ |(c' - c)*(c' + c)| + |(s' - s)*(s' + s)| := abs_add _ _
      _ ≤ (1/200000)*(2 + 1/200000) + (1/200000)*(2 + 1/200000) :=
          add_le_add (abs_mul_le hc hcc) (abs_mul_le hs hssum)
      _ ≤ 1/10000 := by norm_num
  · have e2 : t^2 + c'^2 - 1 = (t + s)*(t - s) + (c' - c)*(c' + c) := by
      rw [← hp]; ring
    rw [e2]
    calc |(t + s)*(t - s) + (c' - c)*(c' + c)|
        ≤ |(t + s)*(t - s)| + |(c' - c)*(c' + c)| := abs_add _ _
      _ ≤ (1/200000)*(2 + 1/200000) + (1/200000)*(2 + 1/200000) :=
          add_le_add (abs_mul_le ht hts) (abs_mul_le hc hcc)
      _ ≤ 1/10000 := by norm_num
  · have e3 : t + s' = (t + s) + (s' - s) := by ring
    have h3 : |t + s'| ≤ 1/200000 + 1/200000 := by
      rw [e3]; exact (abs_add _ _).trans (add_le_add ht hs)
    calc |c' * (t + s')| ≤ (1 + 1/200000) * (1/200000 + 1/200000) := abs_mul_le hcs h3
      _ ≤ 1/10000 := by norm_num
  · have e4 : c'^2 - t*s' - 1 = (c' - c)*(c' + c) + (-((t + s)*s') + s*(s' - s)) := by
      rw [← hp]; ring
    rw [e4]
    calc |(c' - c)*(c' + c) + (-((t + s)*s') + s*(s' - s))|
        ≤ |(c' - c)*(c' + c)| + |(-((t + s)*s') + s*(s' - s))| := abs_add _ _
      _ ≤ |(c' - c)*(c' + c)| + (|(t + s)*s'| + |s*(s' - s)|) := by
          refine add_le_add le_rfl ?_
          refine le_trans (abs_add _ _) ?_
          rw [abs_neg]
      _ ≤ (1/200000)*(2 + 1/200000) + ((1/200000)*(1 + 1/200000) + 1*(1/200000)) :=
          add_le_add (abs_mul_le hc hcc) (add_le_add (abs_mul_le ht hss) (abs_mul_le hs1 hs))
      _ ≤ 1/10000 := by norm_num

/-! ### Validity of the constructed elementary matrices -/

lemma valid_matX (L θ : ℝ) : isValidHTM (1/10000) (matX L θ) := by
  have hc : |round5 (Real.cos θ) - Real.cos θ| ≤ 1/200000 := round5_close _
  have hs : |round5 (Real.sin θ) - Real.sin θ| ≤ 1/200000 := round5_close _
  have ht : |round5 (-(Real.sin θ)) + Real.sin θ| ≤ 1/200000 := by
    have h := round5_close (-(Real.sin θ))
    rwa [sub_neg_eq_add] at h
  obtain ⟨b1, b2, b3, b4⟩ := rot_bounds (Real.cos θ) (Real.sin θ)
    (round5 (Real.cos θ)) (round5 (Real.sin θ)) (round5 (-(Real.sin θ)))
    (Real.cos_sq_add_sin_sq θ) hc hs ht
  rw [abs_le] at b1 b2 b3
  refine ⟨?_, ?_, ?_, ?_, ?_, ?_⟩
  · simp [matX, Matrix.vecHead, Matrix.vecTail, Function.comp]
  · simp [matX, Matrix.vecHead, Matrix.vecTail, Function.comp]
  · simp [matX, Matrix.vecHead, Matrix.vecTail, Function.comp]
  · simp [matX, Matrix.vecHead, Matrix.vecTail, Function.comp]
  · intro i j
    clear hc hs ht b4
    fin_cases i <;> fin_cases j <;>
      simp [rotBlock, matX, Matrix.mul_apply, Fin.sum_univ_three, Matrix.one_apply,
        Matrix.vecHead, Matrix.vecTail, Function.comp] <;>
      rw [abs_le] <;>
      constructor <;>
      nlinarith [b1.1, b1.2, b2.1, b2.2, b3.1, b3.2]
  · have e : (rotBlock (matX L θ)).det =
        round5 (Real.cos θ)^2 - round5 (-(Real.sin θ)) * round5 (Real.sin θ) := by
      rw [Matrix.det_fin_three]
      simp [rotBlock, matX, Matrix.vecHead, Matrix.vecTail, Function.comp]
      ring
    rw [e]
    exact b4

lemma valid_matY (L θ : ℝ) : isValidHTM (1/10000) (matY L θ) := by
  have hc : |round5 (Real.cos θ) - Real.cos θ| ≤ 1/200000 := round5_close _
  have hs : |round5 (Real.sin θ) - Real.sin θ| ≤ 1/200000 := round5_close _
  have ht : |round5 (-(Real.sin θ)) + Real.sin θ| ≤ 1/200000 := by
    have h := round5_close (-(Real.sin θ))
    rwa [sub_neg_eq_add] at h
  obtain ⟨b1, b2, b3, b4⟩ := rot_bounds (Real.cos θ) (Real.sin θ)
    (round5 (Real.cos θ)) (round5 (Real.sin θ)) (round5 (-(Real.sin θ)))
    (Real.cos_sq_add_sin_sq θ) hc hs ht
  rw [abs_le] at b1 b2 b3
  refine ⟨?_, ?_, ?_, ?_, ?_, ?_⟩
  · simp [matY, Matrix.vecHead, Matrix.vecTail, Function.comp]
  · simp [matY, Matrix.vecHead, Matrix.vecTail, Function.comp]
  · simp [matY, Matrix.vecHead, Matrix.vecTail, Function.comp]
  · simp [matY, Matrix.vecHead, Matrix.vecTail, Function.comp]
  · intro i j
    clear hc hs ht b4
    fin_cases i <;> fin_cases j <;>
      simp [rotBlock, matY, Matrix.mul_apply, Fin.sum_univ_three, Matrix.one_apply,
        Matrix.vecHead, Matrix.vecTail, Function.comp] <;>
      rw [abs_le] <;>
      constructor <;>
      nlinarith [b1.1, b1.2, b2.1, b2.2, b3.1, b3.2]
  · have e : (rotBlock (matY L θ)).det =
        round5 (Real.cos θ)^2 - round5 (-(Real.sin θ)) * round5 (Real.sin θ) := by
      rw [Matrix.det_fin_three]
      simp [rotBlock, matY, Matrix.vecHead, Matrix.vecTail, Function.comp]
      ring
    rw [e]
    exact b4

lemma valid_matZ (L θ : ℝ) : isValidHTM (1/10000) (matZ L θ) := by
  have hc : |round5 (Real.cos θ) - Real.cos θ| ≤ 1/200000 := round5_close _
  have hs : |round5 (Real.sin θ) - Real.sin θ| ≤ 1/200000 := round5_close _
  have ht : |round5 (-(Real.sin θ)) + Real.sin θ| ≤ 1/200000 := by
    have h := round5_close (-(Real.sin θ))
    rwa [sub_neg_eq_add] at h
  obtain ⟨b1, b2, b3, b4⟩ := rot_bounds (Real.cos θ) (Real.sin θ)
    (round5 (Real.cos θ)) (round5 (Real.sin θ)) (round5 (-(Real.sin θ)))
    (Real.cos_sq_add_sin_sq θ) hc hs ht
  rw [abs_le] at b1 b2 b3
  refine ⟨?_, ?_, ?_, ?_, ?_, ?_⟩
  · simp [matZ, Matrix.vecHead, Matrix.vecTail, Function.comp]
  · simp [matZ, Matrix.vecHead, Matrix.vecTail, Function.comp]
  · simp [matZ, Matrix.vecHead, Matrix.vecTail, Function.comp]
  · simp [matZ, Matrix.vecHead, Matrix.vecTail, Function.comp]
  · intro i j
    clear hc hs ht b4
    fin_cases i <;> fin_cases j <;>
      simp [rotBlock, matZ, Matrix.mul_apply, Fin.sum_univ_three, Matrix.one_apply,
        Matrix.vecHead, Matrix.vecTail, Function.comp] <;>
      rw [abs_le] <;>
      constructor <;>
      nlinarith [b1.1, b1.2, b2.1, b2.2, b3.1, b3.2]
  · have e : (rotBlock (matZ L θ)).det =
        round5 (Real.cos θ)^2 - round5 (-(Real.sin θ)) * round5 (Real.sin θ) := by
      rw [Matrix.det_fin_three]
      simp [rotBlock, matZ, Matrix.vecHead, Matrix.vecTail, Function.comp]
      ring
    rw [e]
    exact b4

lemma rotBlock_matI (L : ℝ) : rotBlock (matI L) = 1 := by
  ext i j
  fin_cases i <;> fin_cases j <;>
    simp [rotBlock, matI, Matrix.one_apply, Matrix.vecHead, Matrix.vecTail, Function.comp]

lemma valid_matI (L : ℝ) (tol : ℝ) (htol : 0 ≤ tol) : isValidHTM tol (matI L) := by
  refine ⟨?_, ?_, ?_, ?_, ?_, ?_⟩
  · simp [matI, Matrix.vecHead, Matrix.vecTail, Function.comp]
  · simp [matI, Matrix.vecHead, Matrix.vecTail, Function.comp]
  · simp [matI, Matrix.vecHead, Matrix.vecTail, Function.comp]
  · simp [matI, Matrix.vecHead, Matrix.vecTail, Function.comp]
  · intro i j
    rw [rotBlock_matI]
    simp [Matrix.one_apply]
    exact htol
  · rw [rotBlock_matI]
    simp
    exact htol

lemma matI_zero_eq_one : matI 0 = (1 : M4) := by
  ext i j
  fin_cases i <;> fin_cases j <;>
    simp [matI, Matrix.one_apply, Matrix.vecHead, Matrix.vecTail, Function.comp]

lemma npDot_eq_mul (r1 r2 : M4) : npDot r1 r2 = r1 * r2 := by
  ext i j
  simp [npDot, Matrix.mul_apply]

lemma rotBlock_one : rotBlock (1 : M4) = 1 := by
  ext i j
  fin_cases i <;> fin_cases j <;>
    simp [rotBlock, Matrix.one_apply, Matrix.vecHead, Matrix.vecTail, Function.comp]

lemma valid_one (tol : ℝ) (htol : 0 ≤ tol) : isValidHTM tol (1 : M4) := by
  refine ⟨?_, ?_, ?_, ?_, ?_, ?_⟩
  · simp [Matrix.one_apply]
  · simp [Matrix.one_apply]
  · simp [Matrix.one_apply]
  · simp [Matrix.one_apply]
  · intro i j
    rw [rotBlock_one]
    simp [Matrix.one_apply]
    exact htol
  · rw [rotBlock_one]
    simp
    exact htol

/-! ### Closure of exactly-valid transforms under composition -/

lemma ortho_of_entry {R : Matrix (Fin 3) (Fin 3) ℝ}
    (h : ∀ i j, |(R.transpose * R - 1) i j| ≤ 0) : R.transpose * R = 1 := by
  ext i j
  have h2 := h i j
  have h3 : (R.transpose * R - 1) i j = 0 :=
    abs_eq_zero.mp (le_antisymm h2 (abs_nonneg _))
  rw [Matrix.sub_apply] at h3
  linarith

lemma det_of_entry {R : Matrix (Fin 3) (Fin 3) ℝ}
    (h : |R.det - 1| ≤ 0) : R.det = 1 := by
  have h3 : R.det - 1 = 0 := abs_eq_zero.mp (le_antisymm h (abs_nonneg _))
  linarith

lemma rotBlock_npDot {A B : M4} (hB0 : B 3 0 = 0) (hB1 : B 3 1 = 0) (hB2 : B 3 2 = 0) :
    rotBlock (npDot A B) = rotBlock A * rotBlock B := by
  ext i j
  fin_cases i <;> fin_cases j <;>
    simp [npDot, rotBlock, Matrix.mul_apply, Fin.sum_univ_four, Fin.sum_univ_three,
      hB0, hB1, hB2, Matrix.vecHead, Matrix.vecTail, Function.comp, mul_comm]

lemma bottom_npDot {A B : M4} (hA0 : A 3 0 = 0) (hA1 : A 3 1 = 0) (hA2 : A 3 2 = 0)
    (hA3 : A 3 3 = 1) (j : Fin 4) : (npDot A B) 3 j = B 3 j := by
  simp [npDot, Fin.sum_univ_four, hA0, hA1, hA2, hA3]

lemma valid0_npDot {A B : M4} (hA : isValidHTM 0 A) (hB : isValidHTM 0 B) :
    isValidHTM 0 (npDot A B) := by
  obtain ⟨a0, a1, a2, a3, aO, aD⟩ := hA
  obtain ⟨b0, b1, b2, b3, bO, bD⟩ := hB
  have hOA : (rotBlock A).transpose * rotBlock A = 1 := ortho_of_entry aO
  have hOB : (rotBlock B).transpose * rotBlock B = 1 := ortho_of_entry bO
  have hR : rotBlock (npDot A B) = rotBlock A * rotBlock B := rotBlock_npDot b0 b1 b2
  have hOrth : (rotBlock A * rotBlock B).transpose * (rotBlock A * rotBlock B) = 1 := by
    rw [Matrix.transpose_mul, Matrix.mul_assoc, ← Matrix.mul_assoc (rotBlock A).transpose,
      hOA, Matrix.one_mul, hOB]
  refine ⟨?_, ?_, ?_, ?_, ?_, ?_⟩
  · rw [bottom_npDot a0 a1 a2 a3]; exact b0
  · rw [bottom_npDot a0 a1 a2 a3]; exact b1
  · rw [bottom_npDot a0 a1 a2 a3]; exact b2
  · rw [bottom_npDot a0 a1 a2 a3]; exact b3
  · intro i j
    rw [hR, hOrth, sub_self]
    simp
  · rw [hR, Matrix.det_mul, det_of_entry aD, det_of_entry bD]
    simp

/-! ### Concrete trigonometric values used by the worked examples -/

lemma radians_onefifty : radians 150 = Real.pi - Real.pi/6 := by
  unfold radians
  ring

lemma sin_radians_150 : Real.sin (radians 150) = 1/2 := by
  rw [radians_onefifty, Real.sin_pi_sub, Real.sin_pi_div_six]

lemma round5_sin_150 : round5 (Real.sin (radians 150)) = 1/2 := by
  rw [sin_radians_150, round5_half]

lemma matX_zero (L : ℝ) : matX L (radians 0) =
    ![![1, 0, 0, L], ![0, 1, 0, 0], ![0, 0, 1, 0], ![0, 0, 0, 1]] := by
  unfold matX
  rw [radians_zero, Real.cos_zero, Real.sin_zero, neg_zero, round5_zero, round5_one]

/-! ### Branch lemmas for the constructor dispatch -/

lemma htmInit_X {code : String} (hx : pyUpper code = "X") (n : String) (L θd : ℝ) :
    htmInit n code L (some θd) =
      some ⟨n, "X", L, some (radians θd), some (matX L (radians θd))⟩ := by
  unfold htmInit
  rw [hx]
  rfl

lemma htmInit_Y {code : String} (hy : pyUpper code = "Y") (n : String) (L θd : ℝ) :
    htmInit n code L (some θd) =
      some ⟨n, "Y", L, some (radians θd), some (matY L (radians θd))⟩ := by
  unfold htmInit
  rw [hy]
  rfl

lemma htmInit_Z {code : String} (hz : pyUpper code = "Z") (n : String) (L θd : ℝ) :
    htmInit n code L (some θd) =
      some ⟨n, "Z", L, some (radians θd), some (matZ L (radians θd))⟩ := by
  unfold htmInit
  rw [hz]
  rfl

lemma htmInit_XYZ_none {code : String}
    (h : pyUpper code = "X" ∨ pyUpper code = "Y" ∨ pyUpper code = "Z")
    (n : String) (L : ℝ) : htmInit n code L none = none := by
  unfold htmInit
  rcases h with h | h | h <;> rw [h] <;> rfl

lemma htmInit_I {code : String} (hi : pyUpper code = "I") (n : String) (L : ℝ) :
    htmInit n code L none = some ⟨n, "I", L, none, some (matI L)⟩ := by
  unfold htmInit
  rw [hi]
  rfl

lemma htmInit_I_some {code : String} (hi : pyUpper code = "I") (n : String) (L θd : ℝ) :
    htmInit n code L (some θd) = some ⟨n, "I", L, some (radians θd), none⟩ := by
  unfold htmInit
  rw [hi]
  rfl

lemma htmInit_other {code : String} (h1 : pyUpper code ≠ "X") (h2 : pyUpper code ≠ "Y")
    (h3 : pyUpper code ≠ "Z") (h4 : pyUpper code ≠ "I") (n : String) (L : ℝ)
    (θ : Option ℝ) :
    htmInit n code L θ = some ⟨n, pyUpper code, L, θ.map radians, none⟩ := by
  unfold htmInit
  rw [if_neg h1, if_neg h2, if_neg h3, if_neg (fun hc => h4 hc.1)]

/-- Exhaustive description of every case in which `HTM.__init__` sets a
`mat` field: the four axis-code branches. -/
lemma htmInit_mat_cases {n code : String} {L : ℝ} {θ : Option ℝ} {obj : HTMObj} {m : M4}
    (h1 : htmInit n code L θ = some obj) (h2 : obj.mat = some m) :
    (∃ θv, θ = some θv ∧ pyUpper code = "X" ∧ m = matX L (radians θv))
  ∨ (∃ θv, θ = some θv ∧ pyUpper code = "Y" ∧ m = matY L (radians θv))
  ∨ (∃ θv, θ = some θv ∧ pyUpper code = "Z" ∧ m = matZ L (radians θv))
  ∨ (θ = none ∧ pyUpper code = "I" ∧ m = matI L) := by
  by_cases hx : pyUpper code = "X"
  · rcases θ with _ | θv
    · rw [htmInit_XYZ_none (Or.inl hx)] at h1
      exact Option.noConfusion h1
    · rw [htmInit_X hx] at h1
      obtain rfl := (Option.some.inj h1).symm
      obtain rfl := (Option.some.inj h2).symm
      exact Or.inl ⟨θv, rfl, hx, rfl⟩
  by_cases hy : pyUpper code = "Y"
  · rcases θ with _ | θv
    · rw [htmInit_XYZ_none (Or.inr (Or.inl hy))] at h1
      exact Option.noConfusion h1
    · rw [htmInit_Y hy] at h1
      obtain rfl := (Option.some.inj h1).symm
      obtain rfl := (Option.some.inj h2).symm
      exact Or.inr (Or.inl ⟨θv, rfl, hy, rfl⟩)
  by_cases hz : pyUpper code = "Z"
  · rcases θ with _ | θv
    · rw [htmInit_XYZ_none (Or.inr (Or.inr hz))] at h1
      exact Option.noConfusion h1
    · rw [htmInit_Z hz] at h1
      obtain rfl := (Option.some.inj h1).symm
      obtain rfl := (Option.some.inj h2).symm
      exact Or.inr (Or.inr (Or.inl ⟨θv, rfl, hz, rfl⟩))
  by_cases hi : pyUpper code = "I"
  · rcases θ with _ | θv
    · rw [htmInit_I hi] at h1
      obtain rfl := (Option.some.inj h1).symm
      obtain rfl := (Option.some.inj h2).symm
      exact Or.inr (Or.inr (Or.inr ⟨rfl, hi, rfl⟩))
    · rw [htmInit_I_some hi] at h1
      obtain rfl := (Option.some.inj h1).symm
      exact Option.noConfusion h2
  · rw [htmInit_other hx hy hz hi] at h1
    obtain rfl := (Option.some.inj h1).symm
    exact Option.noConfusion h2

/-! ### Claims -/

/-- Claim C1: for every name, link length and angle in degrees, `HTM.__init__`
converts the angle to radians and builds, per axis code (matched
case-insensitively), exactly the documented rotation block, translation
column and bottom row: `X` translates by `[L,0,0]` independently of the
angle, `Y` by `[L*c,0,L*s]`, `Z` by `[L*c,L*s,0]` (with `c`, `s` the
cosine/sine rounded to 5 decimals), and `I` with no angle gives the
identity rotation block with translation `[L,0,0]`. -/
theorem c1_elementary_construction (n : String) (L θ : ℝ) :
    htmInit n "X" L (some θ) = some ⟨n, "X", L, some (radians θ),
      some ![![1, 0, 0, L],
             ![0, round5 (Real.cos (radians θ)), round5 (-(Real.sin (radians θ))), 0],
             ![0, round5 (Real.sin (radians θ)), round5 (Real.cos (radians θ)), 0],
             ![0, 0, 0, 1]]⟩
  ∧ htmInit n "Y" L (some θ) = some ⟨n, "Y", L, some (radians θ),
      some ![![round5 (Real.cos (radians θ)), 0, round5 (Real.sin (radians θ)),
               L * round5 (Real.cos (radians θ))],
             ![0, 1, 0, 0],
             ![round5 (-(Real.sin (radians θ))), 0, round5 (Real.cos (radians θ)),
               L * round5 (Real.sin (radians θ))],
             ![0, 0, 0, 1]]⟩
  ∧ htmInit n "Z" L (some θ) = some ⟨n, "Z", L, some (radians θ),
      some ![![round5 (Real.cos (radians θ)), round5 (-(Real.sin (radians θ))), 0,
               L * round5 (Real.cos (radians θ))],
             ![round5 (Real.sin (radians θ)), round5 (Real.cos (radians θ)), 0,
               L * round5 (Real.sin (radians θ))],
             ![0, 0, 1, 0],
             ![0, 0, 0, 1]]⟩
  ∧ htmInit n "I" L none = some ⟨n, "I", L, none,
      some ![![1, 0, 0, L], ![0, 1, 0, 0], ![0, 0, 1, 0], ![0, 0, 0, 1]]⟩
  ∧ htmInit n "x" L (some θ) = htmInit n "X" L (some θ)
  ∧ htmInit n "y" L (some θ) = htmInit n "Y" L (some θ)
  ∧ htmInit n "z" L (some θ) = htmInit n "Z" L (some θ)
  ∧ htmInit n "i" L none = htmInit n "I" L none :=
  ⟨rfl, rfl, rfl, rfl, rfl, rfl, rfl, rfl⟩

/-- Claim C7: an X-axis transform with `L = 5`, angle `0` is exactly
`[[1,0,0,5],[0,1,0,0],[0,0,1,0],[0,0,0,1]]`; a Z-axis transform with
`L = 5`, angle `150` has rotation block
`[[c,-s,0],[s,c,0],[0,0,1]]` and translation column `[5c,5s,0]`,
where `c`, `s` are `cos 150` and `sin 150` in degrees rounded to 5
decimals (and `s = 0.5` exactly). -/
theorem c7_worked_examples :
    htmInit "T" "X" 5 (some 0) = some ⟨"T", "X", 5, some (radians 0),
      some ![![1, 0, 0, 5], ![0, 1, 0, 0], ![0, 0, 1, 0], ![0, 0, 0, 1]]⟩
  ∧ htmInit "T_01" "Z" 5 (some 150) = some ⟨"T_01", "Z", 5, some (radians 150),
      some ![![round5 (Real.cos (radians 150)), -round5 (Real.sin (radians 150)), 0,
               5 * round5 (Real.cos (radians 150))],
             ![round5 (Real.sin (radians 150)), round5 (Real.cos (radians 150)), 0,
               5 * round5 (Real.sin (radians 150))],
             ![0, 0, 1, 0],
             ![0, 0, 0, 1]]⟩
  ∧ round5 (Real.sin (radians 150)) = 1/2 := by
  refine ⟨?_, ?_, round5_sin_150⟩
  · rw [show (![![1, 0, 0, (5:ℝ)], ![0, 1, 0, 0], ![0, 0, 1, 0], ![0, 0, 0, 1]] : M4) =
        matX 5 (radians 0) from (matX_zero 5).symm]
    rfl
  · have h : (![![round5 (Real.cos (radians 150)), -round5 (Real.sin (radians 150)), 0,
               5 * round5 (Real.cos (radians 150))],
             ![round5 (Real.sin (radians 150)), round5 (Real.cos (radians 150)), 0,
               5 * round5 (Real.sin (radians 150))],
             ![0, 0, 1, 0],
             ![0, 0, 0, 1]] : M4) = matZ 5 (radians 150) := by
      unfold matZ
      rw [sin_radians_150, round5_half, round5_neg_half]
    rw [h]
    rfl

/-- Claim C2: the matrix of a composed transform is the standard
linear-algebra matrix product of its two operands (row-by-column dot
products), and this differs from the element-wise product (witnessed by
the all-ones matrices). -/
theorem c2_composition_matrix_product :
    (∀ (n : String) (r1 r2 : M4), (calculatedHTMInit n r1 r2).mat = r1 * r2)
  ∧ (calculatedHTMInit "probe" onesMat onesMat).mat ≠ elementwiseMul onesMat onesMat := by
  constructor
  · intro n r1 r2
    exact npDot_eq_mul r1 r2
  · intro h
    have h00 := congrFun (congrFun h 0) 0
    simp [calculatedHTMInit, npDot, elementwiseMul, onesMat, Fin.sum_univ_four] at h00

/-- Claim C4: the frame sequence built by `main` starts with the world
frame, whose matrix is the 4x4 identity, and each later frame's matrix
is the composition of the previous frame's world-relative pose (left
operand) with the current joint's elementary transform (right operand);
the constructor calls of `main` produce exactly the elementary matrices
used. -/
theorem c4_chain_assembly :
    frameList.length = 6
  ∧ frameList[0]? = some (1 : M4)
  ∧ frameList[1]? = some ((calculatedHTMInit "T_01" R00mat T01mat).mat)
  ∧ frameList[2]? = some ((calculatedHTMInit "T_02" T01mat T12mat).mat)
  ∧ frameList[3]? = some ((calculatedHTMInit "T_03" T02mat T23mat).mat)
  ∧ frameList[4]? = some ((calculatedHTMInit "T_04" T03mat T34mat).mat)
  ∧ frameList[5]? = some ((calculatedHTMInit "T_05" T04mat T45mat).mat)
  ∧ htmInit "R_00" "i" 0 none = some ⟨"R_00", "I", 0, none, some R00mat⟩
  ∧ htmInit "T_01" "z" 5 (some 150) = some ⟨"T_01", "Z", 5, some (radians 150), some T01mat⟩
  ∧ htmInit "T_12" "y" 4 (some 100) = some ⟨"T_12", "Y", 4, some (radians 100), some T12mat⟩
  ∧ htmInit "T_23" "z" 3 (some (-90)) = some ⟨"T_23", "Z", 3, some (radians (-90)), some T23mat⟩
  ∧ htmInit "T_34" "z" 3 (some (-60)) = some ⟨"T_34", "Z", 3, some (radians (-60)), some T34mat⟩
  ∧ htmInit "T_34" "x" 1.5 (some 90) = some ⟨"T_34", "X", 1.5, some (radians 90), some T45mat⟩ := by
  have hR : R00mat = (1 : M4) := by
    unfold R00mat
    exact matI_zero_eq_one
  have h1 : (calculatedHTMInit "T_01" R00mat T01mat).mat = T01mat := by
    show npDot R00mat T01mat = T01mat
    rw [npDot_eq_mul, hR, Matrix.one_mul]
  refine ⟨rfl, ?_, ?_, rfl, rfl, rfl, rfl, rfl, rfl, rfl, rfl, rfl, rfl⟩
  · show some R00mat = some (1 : M4)
    rw [hR]
  · show some T01mat = some ((calculatedHTMInit "T_01" R00mat T01mat).mat)
    rw [h1]

/-- Claim C3 (amended): every matrix produced by `HTM.__init__` is a
valid homogeneous transform within rounding tolerance `1e-4` (with the
rotation block exactly the 3x3 identity for the `I` variant), and the
composition of two EXACTLY valid homogeneous transforms through
`CalculatedHTM` is exactly valid.  Composing two merely `1e-4`-valid
transforms need not stay within `1e-4` (see the counterexample). -/
theorem c3_construction_composition_validity :
    (∀ (n code : String) (L : ℝ) (θ : Option ℝ) (obj : HTMObj) (m : M4),
        htmInit n code L θ = some obj → obj.mat = some m →
        isValidHTM (1/10000) m ∧ (pyUpper code = "I" → rotBlock m = 1))
  ∧ (∀ (n : String) (A B : M4), isValidHTM 0 A → isValidHTM 0 B →
        isValidHTM 0 ((calculatedHTMInit n A B).mat)) := by
  constructor
  · intro n code L θ obj m h1 h2
    rcases htmInit_mat_cases h1 h2 with
      ⟨θv, rfl, hx, rfl⟩ | ⟨θv, rfl, hy, rfl⟩ | ⟨θv, rfl, hz, rfl⟩ | ⟨rfl, hi, rfl⟩
    · refine ⟨valid_matX L (radians θv), fun hI => absurd (hx ▸ hI) ?_⟩
      decide
    · refine ⟨valid_matY L (radians θv), fun hI => absurd (hy ▸ hI) ?_⟩
      decide
    · refine ⟨valid_matZ L (radians θv), fun hI => absurd (hz ▸ hI) ?_⟩
      decide
    · exact ⟨valid_matI L (1/10000) (by norm_num), fun _ => rotBlock_matI L⟩
  · intro n A B hA hB
    exact valid0_npDot hA hB

/-- Witness for C3: the X-transform with length 5 and angle 0 satisfies
the construction half, and the identity matrices satisfy the composition
half. -/
theorem c3_validity_witness :
    (isValidHTM (1/10000) (matX 5 (radians 0)) ∧
      (pyUpper "X" = "I" → rotBlock (matX 5 (radians 0)) = 1))
  ∧ isValidHTM 0 ((calculatedHTMInit "w" (1 : M4) (1 : M4)).mat) :=
  ⟨c3_construction_composition_validity.1 "n" "X" 5 (some 0)
      ⟨"n", "X", 5, some (radians 0), some (matX 5 (radians 0))⟩
      (matX 5 (radians 0)) rfl rfl,
   c3_construction_composition_validity.2 "w" 1 1
      (valid_one 0 le_rfl) (valid_one 0 le_rfl)⟩

/-- Counterexample for C3 as stated: `nearValidA` is a valid homogeneous
transform within tolerance `1e-4`, but its composition with itself through
`CalculatedHTM` is not — `1e-4`-validity is not preserved by composition. -/
theorem c3_tolerance_not_preserved :
    isValidHTM (1/10000) nearValidA ∧
    ¬ isValidHTM (1/10000) ((calculatedHTMInit "sq" nearValidA nearValidA).mat) := by
  constructor
  · refine ⟨?_, ?_, ?_, ?_, ?_, ?_⟩
    · simp [nearValidA, Matrix.vecHead, Matrix.vecTail, Function.comp]
    · simp [nearValidA, Matrix.vecHead, Matrix.vecTail, Function.comp]
    · simp [nearValidA, Matrix.vecHead, Matrix.vecTail, Function.comp]
    · simp [nearValidA, Matrix.vecHead, Matrix.vecTail, Function.comp]
    · intro i j
      fin_cases i <;> fin_cases j <;>
        simp [rotBlock, nearValidA, Matrix.mul_apply, Fin.sum_univ_three, Matrix.one_apply,
          Matrix.vecHead, Matrix.vecTail, Function.comp] <;>
        rw [abs_le] <;>
        constructor <;>
        norm_num
    · have e : (rotBlock nearValidA).det = (1000033/1000000 : ℝ)^3 := by
        rw [Matrix.det_fin_three]
        simp [rotBlock, nearValidA, Matrix.vecHead, Matrix.vecTail, Function.comp]
        ring
      rw [e, abs_le]
      constructor <;> norm_num
  · intro h
    have h00 := h.2.2.2.2.1 0 0
    have e : ((rotBlock ((calculatedHTMInit "sq" nearValidA nearValidA).mat)).transpose *
        rotBlock ((calculatedHTMInit "sq" nearValidA nearValidA).mat) - 1) 0 0 =
        (1000033/1000000 : ℝ)^4 - 1 := by
      simp [calculatedHTMInit, npDot, rotBlock, nearValidA, Matrix.mul_apply,
        Fin.sum_univ_four, Fin.sum_univ_three, Matrix.one_apply,
        Matrix.vecHead, Matrix.vecTail, Function.comp]
      ring
    rw [e, abs_le] at h00
    have := h00.2
    norm_num at this

/-- Claim C9: composing a valid homogeneous transform with the identity
transform (`HTM('.','i',0)`'s matrix, on either side) through
`CalculatedHTM` reproduces the original matrix exactly. -/
theorem c9_identity_composition (n1 n2 : String) (A : M4)
    (_hA : isValidHTM (1/10000) A) :
    (calculatedHTMInit n1 A (matI 0)).mat = A ∧
    (calculatedHTMInit n2 (matI 0) A).mat = A := by
  constructor
  · show npDot A (matI 0) = A
    rw [npDot_eq_mul, matI_zero_eq_one, Matrix.mul_one]
  · show npDot (matI 0) A = A
    rw [npDot_eq_mul, matI_zero_eq_one, Matrix.one_mul]

/-- Witness for C9 at the identity matrix. -/
theorem c9_identity_composition_witness :
    isValidHTM (1/10000) (1 : M4) ∧
    ((calculatedHTMInit "a" (1 : M4) (matI 0)).mat = (1 : M4) ∧
     (calculatedHTMInit "b" (matI 0) (1 : M4)).mat = (1 : M4)) :=
  ⟨valid_one (1/10000) (by norm_num),
   c9_identity_composition "a" "b" 1 (valid_one (1/10000) (by norm_num))⟩

/-- Counterexample for C5 as stated: with the unrecognized axis code `"W"`
the constructor does not fail at all — it returns normally (after printing
a diagnostic) with an object carrying no matrix; no error of any kind is
raised. -/
theorem c5_no_error_raised :
    htmInit "bad" "W" 1 none = some ⟨"bad", "W", 1, none, none⟩ ∧
    htmInit "bad" "W" 1 none ≠ none := by
  constructor
  · rfl
  · intro h
    rw [show htmInit "bad" "W" 1 none = some ⟨"bad", "W", 1, none, none⟩ from rfl] at h
    exact Option.noConfusion h

/-- Claim C5 (amended): for every invalid joint specification no matrix is
produced, but no `InvalidJointSpecification` error exists: an unrecognized
axis code, or code `I` together with an angle, makes the constructor
return normally with an object whose `mat` field is absent, while codes
`X`/`Y`/`Z` with no angle make the constructor raise a `TypeError`. -/
theorem c5_invalid_spec_behaviour (n code : String) (L : ℝ) (θ : Option ℝ) :
    ((pyUpper code ≠ "X" ∧ pyUpper code ≠ "Y" ∧ pyUpper code ≠ "Z" ∧ pyUpper code ≠ "I") →
      htmInit n code L θ = some ⟨n, pyUpper code, L, θ.map radians, none⟩)
  ∧ (∀ θv : ℝ, pyUpper code = "I" → θ = some θv →
      htmInit n code L θ = some ⟨n, "I", L, some (radians θv), none⟩)
  ∧ ((pyUpper code = "X" ∨ pyUpper code = "Y" ∨ pyUpper code = "Z") → θ = none →
      htmInit n code L θ = none) := by
  refine ⟨?_, ?_, ?_⟩
  · rintro ⟨h1, h2, h3, h4⟩
    exact htmInit_other h1 h2 h3 h4 n L θ
  · rintro θv hi rfl
    exact htmInit_I_some hi n L θv
  · rintro h rfl
    exact htmInit_XYZ_none h n L

/-- Witness for C5 (amended) at codes `"W"` and `"X"`. -/
theorem c5_invalid_spec_witness :
    htmInit "n" "W" 1 none = some ⟨"n", "W", 1, none, none⟩ ∧
    htmInit "n" "X" 1 none = none :=
  ⟨(c5_invalid_spec_behaviour "n" "W" 1 none).1
      ⟨by decide, by decide, by decide, by decide⟩,
   (c5_invalid_spec_behaviour "n" "X" 1 none).2.2 (Or.inl (by decide)) rfl⟩

/-- Claim C10: for an axis code outside the recognized variants — a code
that is not `X`/`Y`/`Z`/`I` (case-insensitively), or `I` supplied together
with an angle — the constructor returns normally: no error is raised, the
name, upper-cased type, length and radian-converted angle fields are set,
and the object carries no matrix. -/
theorem c10_unmatched_branch (n code : String) (L : ℝ) (θ : Option ℝ)
    (h : (pyUpper code ≠ "X" ∧ pyUpper code ≠ "Y" ∧ pyUpper code ≠ "Z" ∧ pyUpper code ≠ "I")
        ∨ (pyUpper code = "I" ∧ θ ≠ none)) :
    htmInit n code L θ = some ⟨n, pyUpper code, L, θ.map radians, none⟩ := by
  rcases h with ⟨h1, h2, h3, h4⟩ | ⟨hi, hθ⟩
  · exact htmInit_other h1 h2 h3 h4 n L θ
  · rcases θ with _ | θv
    · exact absurd rfl hθ
    · rw [hi]
      exact htmInit_I_some hi n L θv

/-- Witness for C10: the codes `"W"` (unrecognized) and `"i"` with an
angle both yield a normal return with no matrix. -/
theorem c10_unmatched_branch_witness :
    htmInit "w1" "W" 2 none = some ⟨"w1", "W", 2, none, none⟩ ∧
    htmInit "w2" "i" 3 (some 45) = some ⟨"w2", "I", 3, some (radians 45), none⟩ :=
  ⟨c10_unmatched_branch "w1" "W" 2 none
      (Or.inl ⟨by decide, by decide, by decide, by decide⟩),
   c10_unmatched_branch "w2" "i" 3 (some 45)
      (Or.inr ⟨by decide, by simp⟩)⟩

/-- Claim C8 (amended): in every matrix produced by `HTM.__init__`, each
entry of the 3x3 rotation block equals its own rounding to 5 decimal
places (entries are `0`, `1`, or already-rounded trigonometric values).
The translation entries are NOT rounded (see the counterexample). -/
theorem c8_rotation_block_rounded :
    ∀ (n code : String) (L : ℝ) (θ : Option ℝ) (obj : HTMObj) (m : M4),
      htmInit n code L θ = some obj → obj.mat = some m →
      ∀ i j : Fin 3, rotBlock m i j = round5 (rotBlock m i j) := by
  intro n code L θ obj m h1 h2 i j
  rcases htmInit_mat_cases h1 h2 with
    ⟨θv, rfl, hx, rfl⟩ | ⟨θv, rfl, hy, rfl⟩ | ⟨θv, rfl, hz, rfl⟩ | ⟨rfl, hi, rfl⟩ <;>
    fin_cases i <;> fin_cases j <;>
    simp [rotBlock, matX, matY, matZ, matI, Matrix.vecHead, Matrix.vecTail, Function.comp,
      round5_zero, round5_one, round5_idem]

/-- Witness for C8 (amended) at the X-transform with length 5, angle 0. -/
theorem c8_rotation_block_rounded_witness :
    rotBlock (matX 5 (radians 0)) 0 1 = round5 (rotBlock (matX 5 (radians 0)) 0 1) :=
  c8_rotation_block_rounded "n" "X" 5 (some 0)
    ⟨"n", "X", 5, some (radians 0), some (matX 5 (radians 0))⟩
    (matX 5 (radians 0)) rfl rfl 0 1

/-- Counterexample for C8 as stated: the translation entry of an
X-transform is the raw link length, and with `L = 1e-6` it differs from
its own rounding to 5 decimals (which is `0`). -/
theorem c8_translation_not_rounded :
    htmInit "n" "X" (1/1000000) (some 0) =
      some ⟨"n", "X", 1/1000000, some (radians 0), some (matX (1/1000000) (radians 0))⟩
  ∧ matX (1/1000000) (radians 0) 0 3 = 1/1000000
  ∧ round5 (matX (1/1000000) (radians 0) 0 3) ≠ matX (1/1000000) (radians 0) 0 3 := by
  have e : matX (1/1000000) (radians 0) 0 3 = 1/1000000 := by
    simp [matX, Matrix.vecHead, Matrix.vecTail, Function.comp]
  refine ⟨rfl, e, ?_⟩
  rw [e, round5_micro]
  norm_num

/-- Claim C6 (amended): the list-of-rows model of `np.dot` succeeds
exactly when the inner dimensions agree (every row of `r1` as long as
`r2` has rows) — there is no 4x4 restriction: any rectangular `m` x `n`
by `n` x `p` product succeeds and yields an `m` x `p` result, and the
only failure (numpy's `ValueError`, there is no `DimensionMismatch`)
is an inner-dimension mismatch. -/
theorem c6_composition_shape :
    (∀ (r1 r2 : List (List ℚ)), (npDot2d r1 r2).isSome = true ↔
        r1.all (fun row => row.length = r2.length) = true)
  ∧ (∀ (r1 r2 : List (List ℚ)) (m n p : Nat), 0 < n →
        isRect r1 m n → isRect r2 n p →
        ∃ out, npDot2d r1 r2 = some out ∧ isRect out m p) := by
  constructor
  · intro r1 r2
    unfold npDot2d
    by_cases h : r1.all (fun row => row.length = r2.length) = true
    · rw [if_pos h]
      simp [h]
    · rw [if_neg h]
      simp [h]
  · intro r1 r2 m n p hn hr1 hr2
    obtain ⟨hlen1, hrows1⟩ := hr1
    obtain ⟨hlen2, hrows2⟩ := hr2
    have hall : r1.all (fun row => row.length = r2.length) = true := by
      rw [List.all_eq_true]
      intro row hrow
      rw [decide_eq_true_eq, hrows1 row hrow, hlen2]
    cases r2 with
    | nil =>
        exfalso
        simp at hlen2
        omega
    | cons row2 rest2 =>
        have hrow2 : row2.length = p := hrows2 row2 (List.mem_cons_self _ _)
        refine ⟨r1.map fun row =>
            (List.range (((row2 :: rest2).headD []).length)).map fun j =>
              dotEntry row (row2 :: rest2) j, ?_, ?_, ?_⟩
        · unfold npDot2d
          rw [if_pos hall]
        · simp
          exact hlen1
        · intro row hrow
          simp at hrow
          obtain ⟨a, ha, rfl⟩ := hrow
          simp [hrow2]

/-- Witness for C6 (amended): a 2x3 by 3x2 product succeeds and is 2x2 —
no operand is 4x4. -/
theorem c6_composition_shape_witness :
    ∃ out, npDot2d [[1, 2, 3], [4, 5, 6]] [[1, 0], [0, 1], [1, 1]] = some out ∧
      isRect out 2 2 :=
  c6_composition_shape.2 [[1, 2, 3], [4, 5, 6]] [[1, 0], [0, 1], [1, 1]] 2 3 2
    (by decide) ⟨rfl, by decide⟩ ⟨rfl, by decide⟩

/-- Counterexample for C6 as stated: a 3x4 left operand (not 4x4)
composes successfully with a 4x4 right operand — no `DimensionMismatch`
failure occurs. -/
theorem c6_non4x4_succeeds :
    (npDot2d [[1, 1, 1, 1], [1, 1, 1, 1], [1, 1, 1, 1]]
      [[1, 1, 1, 1], [1, 1, 1, 1], [1, 1, 1, 1], [1, 1, 1, 1]]).isSome = true
  ∧ ¬ isRect [[(1 : ℚ), 1, 1, 1], [1, 1, 1, 1], [1, 1, 1, 1]] 4 4 := by
  constructor
  · decide
  · intro h
    have hlen := h.1
    norm_num at hlen

end RoboticArm
